import Mathlib

/-!
Verification development for the `serve` command of the go-swagger fork
(`cmd/swagger/commands/serve.go`).  The Go source is shallowly embedded:

* Go standard-library helpers used by the command (`path.Clean`, `path.Join`,
  `strings.Join`, `net.JoinHostPort`, `swag.SplitHostPort`, `strconv.Atoi`)
  are translated as executable Lean functions;
* `encoding/json.MarshalIndent` is modelled on a JSON value type, with Go's
  deterministic (sorted) rendering of object keys;
* the `go-openapi/runtime` middleware constructors (`Redoc`, `SwaggerUI`,
  `Spec`) and the CORS wrapper are modelled as constructors of an explicit
  handler-chain datatype, with a request-dispatch function giving their
  routing semantics;
* external effects (spec loading, reference expansion, listening, browser
  launching) are oracles collected in an `Env`; `ServeCmd.Execute` becomes a
  pure function from command, arguments and oracles to an outcome plus a
  trace of the effects it performed, in program order.
-/

/-- Go `strings.Join(elems, sep)`. -/
def goStringsJoin : List String → String → String
  | [], _ => ""
  | [x], _ => x
  | x :: xs, sep => x ++ sep ++ goStringsJoin xs sep

/-- Split a character list on `/` (like `strings.Split(s, "/")`). -/
def splitOnSlash : List Char → List (List Char)
  | [] => [[]]
  | c :: rest =>
    let r := splitOnSlash rest
    if c = '/' then [] :: r
    else
      match r with
      | [] => [[c]]
      | s :: ss => (c :: s) :: ss

/-- Stack-based core of Go `path.Clean`: process the slash-separated
segments, dropping empty and `.` segments and resolving `..` against the
accumulator (which holds the output segments in reverse). -/
def cleanSegs (rooted : Bool) (segs : List String) : List String :=
  segs.foldl
    (fun acc seg =>
      if seg = "" ∨ seg = "." then acc
      else if seg = ".." then
        match acc with
        | [] => if rooted then [] else [".."]
        | a :: rest => if a = ".." then seg :: a :: rest else rest
      else seg :: acc)
    []

/-- Go `path.Clean`. -/
def pathClean (p : String) : String :=
  if p = "" then "."
  else
    let rooted := match p.data with | '/' :: _ => true | _ => false
    let segs := (splitOnSlash p.data).map String.mk
    let out := (cleanSegs rooted segs).reverse
    let r := (if rooted then "/" else "") ++ goStringsJoin out "/"
    if r = "" then "." else r

/-- Go `path.Join`: drop leading empty elements, join the rest with `/` and
clean the result; all-empty input yields the empty string. -/
def pathJoin (elems : List String) : String :=
  match elems.dropWhile (fun e => e = "") with
  | [] => ""
  | rest => pathClean (goStringsJoin rest "/")

/-- Go `net.JoinHostPort`. -/
def joinHostPort (host port : String) : String :=
  if host.data.contains ':' then "[" ++ host ++ "]:" ++ port
  else host ++ ":" ++ port

/-- Split a character list at its last colon (host part, port part). -/
def splitLastColon : List Char → Option (List Char × List Char)
  | [] => none
  | c :: rest =>
    match splitLastColon rest with
    | some (h, p) => some (c :: h, p)
    | none => if c = ':' then some ([], rest) else none

/-- Digits-only decimal parse. -/
def parseDigits : List Char → Option Nat
  | [] => none
  | cs =>
    cs.foldl
      (fun acc c =>
        match acc with
        | none => none
        | some n => if c.isDigit then some (n * 10 + (c.toNat - 48)) else none)
      (some 0)

/-- Go `strconv.Atoi` (optional sign, decimal digits; range checks elided —
the command only feeds it port numbers). -/
def goAtoi (s : String) : Except String Int :=
  let bad : Except String Int :=
    .error ("strconv.Atoi: parsing " ++ s ++ ": invalid syntax")
  match s.toList with
  | [] => bad
  | '-' :: rest =>
    match parseDigits rest with
    | some n => .ok (-(n : Int))
    | none => bad
  | '+' :: rest =>
    match parseDigits rest with
    | some n => .ok (n : Int)
    | none => bad
  | cs =>
    match parseDigits cs with
    | some n => .ok (n : Int)
    | none => bad

/-- `swag.SplitHostPort`: split `host:port` at the last colon and parse the
port as a decimal integer; fail when there is no colon or no valid port. -/
def splitHostPort (addr : String) : Except String (String × Int) :=
  match splitLastColon addr.toList with
  | none => .error ("address " ++ addr ++ ": missing port in address")
  | some (h, p) =>
    if p = [] then .error ("address " ++ addr ++ ": missing port in address")
    else
      match goAtoi (String.mk p) with
      | .error e => .error e
      | .ok n => .ok (String.mk h, n)

/-- In-memory JSON document (the `specDoc.Spec()` value handed to
`json.MarshalIndent`); numbers are restricted to integers, which loses no
generality for the serialization properties verified here. -/
inductive Json where
  | null
  | bool (b : Bool)
  | num (n : Int)
  | str (s : String)
  | arr (xs : List Json)
  | obj (kvs : List (String × Json))

/-- Escaping used by `encoding/json` for string values (default HTML-escaping
encoder). -/
def jsonEscapeChar (c : Char) : String :=
  if c = '"' then "\\\""
  else if c = '\\' then "\\\\"
  else if c = '\n' then "\\n"
  else if c = '\r' then "\\r"
  else if c = '\t' then "\\t"
  else if c = '<' then "\\u003c"
  else if c = '>' then "\\u003e"
  else if c = '&' then "\\u0026"
  else String.singleton c

/-- Quote a JSON string value. -/
def jsonQuote (s : String) : String :=
  "\"" ++ String.join (s.data.map jsonEscapeChar) ++ "\""

/-- Byte-wise (code-point) comparison of character lists, the order
`encoding/json` sorts map keys with. -/
def charListLe : List Char → List Char → Bool
  | [], _ => true
  | _ :: _, [] => false
  | a :: as, b :: bs =>
    if a.toNat < b.toNat then true
    else if b.toNat < a.toNat then false
    else charListLe as bs

/-- Key order on pairs, comparing the first (key) component only. -/
def kLe {α : Type} (p q : String × α) : Prop := charListLe p.1.data q.1.data = true

instance {α : Type} : DecidableRel (@kLe α) := fun p q =>
  inferInstanceAs (Decidable (charListLe p.1.data q.1.data = true))

/-- Sort an association list by key (Go renders map members in increasing
key order). -/
def sortKVs {α : Type} (l : List (String × α)) : List (String × α) :=
  l.insertionSort kLe

/-- `ind` repeated `n` times. -/
def indRepeat (ind : String) : Nat → String
  | 0 => ""
  | n + 1 => indRepeat ind n ++ ind

/-- The prefix written after each newline at a given nesting depth, as
`json.MarshalIndent` does. -/
def jsonPad (pfx ind : String) (depth : Nat) : String := pfx ++ indRepeat ind depth

/-- Glue rendered array elements in `MarshalIndent` layout. -/
def renderArrItems (pfx ind : String) (depth : Nat) (items : List String) : String :=
  match items with
  | [] => "[]"
  | _ =>
    "[\n" ++ goStringsJoin (items.map (fun it => jsonPad pfx ind (depth + 1) ++ it)) ",\n"
      ++ "\n" ++ jsonPad pfx ind depth ++ "]"

/-- Glue rendered object members in `MarshalIndent` layout. -/
def renderObjItems (pfx ind : String) (depth : Nat) (items : List (String × String)) : String :=
  match items with
  | [] => "\x7b\x7d"
  | _ =>
    "\x7b\n"
      ++ goStringsJoin
          (items.map (fun p => jsonPad pfx ind (depth + 1) ++ jsonQuote p.1 ++ ": " ++ p.2)) ",\n"
      ++ "\n" ++ jsonPad pfx ind depth ++ "\x7d"

mutual

/-- Model of `encoding/json.MarshalIndent` rendering at a given depth:
object members are emitted in increasing key order (Go sorts map keys, which
is what makes its output deterministic). -/
def goMarshalVal (pfx ind : String) (depth : Nat) : Json → String
  | .null => "null"
  | .bool true => "true"
  | .bool false => "false"
  | .num n => toString n
  | .str s => jsonQuote s
  | .arr xs => renderArrItems pfx ind depth (goMarshalList pfx ind (depth + 1) xs)
  | .obj kvs => renderObjItems pfx ind depth (sortKVs (goMarshalKVs pfx ind (depth + 1) kvs))

def goMarshalList (pfx ind : String) (depth : Nat) : List Json → List String
  | [] => []
  | x :: xs => goMarshalVal pfx ind depth x :: goMarshalList pfx ind depth xs

def goMarshalKVs (pfx ind : String) (depth : Nat) :
    List (String × Json) → List (String × String)
  | [] => []
  | (k, v) :: rest => (k, goMarshalVal pfx ind depth v) :: goMarshalKVs pfx ind depth rest

end

/-- `json.MarshalIndent(v, pfx, ind)` (total here: every `Json` value is
serializable). -/
def goMarshalIndent (v : Json) (pfx ind : String) : String := goMarshalVal pfx ind 0 v

mutual

/-- Canonical form of a JSON value: every object's members sorted by key.
Two `Json` values with the same canonical form describe the same in-memory
document (Go maps carry no member order). -/
def canonJson : Json → Json
  | .null => .null
  | .bool b => .bool b
  | .num n => .num n
  | .str s => .str s
  | .arr xs => .arr (canonList xs)
  | .obj kvs => .obj (sortKVs (canonKVs kvs))

def canonList : List Json → List Json
  | [] => []
  | x :: xs => canonJson x :: canonList xs

def canonKVs : List (String × Json) → List (String × Json)
  | [] => []
  | (k, v) :: rest => (k, canonJson v) :: canonKVs rest

end

mutual

/-- Order-preserving rendering (no key sorting), used to factor the
marshaller as canonicalization followed by plain rendering. -/
def goRenderVal (pfx ind : String) (depth : Nat) : Json → String
  | .null => "null"
  | .bool true => "true"
  | .bool false => "false"
  | .num n => toString n
  | .str s => jsonQuote s
  | .arr xs => renderArrItems pfx ind depth (goRenderList pfx ind (depth + 1) xs)
  | .obj kvs => renderObjItems pfx ind depth (goRenderKVs pfx ind (depth + 1) kvs)

def goRenderList (pfx ind : String) (depth : Nat) : List Json → List String
  | [] => []
  | x :: xs => goRenderVal pfx ind depth x :: goRenderList pfx ind depth xs

def goRenderKVs (pfx ind : String) (depth : Nat) :
    List (String × Json) → List (String × String)
  | [] => []
  | (k, v) :: rest => (k, goRenderVal pfx ind depth v) :: goRenderKVs pfx ind depth rest

end

/-- The two hardcoded default remote asset prefixes of `serve.go`
(`DefaultRedocCloudStaticFileUrLPrefix` / `DefaultSwaggerCloudStaticFileUrLPrefix`). -/
def DefaultSwaggerCloudStaticFileUrLPrefix : String := "https://unpkg.com/swagger-ui-dist"

def DefaultRedocCloudStaticFileUrLPrefix : String := "https://cdn.jsdelivr.net/npm/redoc/bundles"

/-- Default asset locations of the external `go-openapi/runtime` middleware;
never engaged by the serve command, which fills in every field. -/
def redocLatest : String := "https://cdn.jsdelivr.net/npm/redoc/bundles/redoc.standalone.js"

def swaggerLatest : String := "https://unpkg.com/swagger-ui-dist/swagger-ui-bundle.js"

def swaggerPresetLatest : String :=
  "https://unpkg.com/swagger-ui-dist/swagger-ui-standalone-preset.js"

def swaggerStylesLatest : String := "https://unpkg.com/swagger-ui-dist/swagger-ui.css"

/-- `middleware.RedocOpts` (external `go-openapi/runtime`). -/
structure RedocOpts where
  basePath : String
  path : String
  specURL : String
  redocURL : String
  title : String
deriving DecidableEq

/-- `RedocOpts.EnsureDefaults`, applied by the `middleware.Redoc`
constructor. -/
def RedocOpts.ensureDefaults (o : RedocOpts) : RedocOpts where
  basePath := if o.basePath = "" then "/" else o.basePath
  path := if o.path = "" then "docs" else o.path
  specURL := if o.specURL = "" then "/swagger.json" else o.specURL
  redocURL := if o.redocURL = "" then redocLatest else o.redocURL
  title := if o.title = "" then "API documentation" else o.title

/-- `middleware.SwaggerUIOpts` (external `go-openapi/runtime`). -/
structure SwaggerUIOpts where
  basePath : String
  path : String
  specURL : String
  swaggerURL : String
  swaggerPresetURL : String
  swaggerStylesURL : String
  favicon16 : String
  favicon32 : String
  title : String
deriving DecidableEq

/-- `SwaggerUIOpts.EnsureDefaults`, applied by the `middleware.SwaggerUI`
constructor. -/
def SwaggerUIOpts.ensureDefaults (o : SwaggerUIOpts) : SwaggerUIOpts where
  basePath := if o.basePath = "" then "/" else o.basePath
  path := if o.path = "" then "docs" else o.path
  specURL := if o.specURL = "" then "/swagger.json" else o.specURL
  swaggerURL := if o.swaggerURL = "" then swaggerLatest else o.swaggerURL
  swaggerPresetURL := if o.swaggerPresetURL = "" then swaggerPresetLatest else o.swaggerPresetURL
  swaggerStylesURL := if o.swaggerStylesURL = "" then swaggerStylesLatest else o.swaggerStylesURL
  favicon16 := if o.favicon16 = "" then "/favicon-16x16.png" else o.favicon16
  favicon32 := if o.favicon32 = "" then "/favicon-32x32.png" else o.favicon32
  title := if o.title = "" then "API documentation" else o.title

/-- The composed HTTP handler chain.  Each constructor is one of the
wrappers applied in `ServeCmd.Execute`: the gorilla CORS layer, the
`middleware.Spec` raw-document route, the two UI middlewares and the final
`http.NotFoundHandler`.  The options stored in a UI node are the
`EnsureDefaults`-completed options of the constructed middleware. -/
inductive Handler where
  | notFound
  | redoc (opts : RedocOpts) (next : Handler)
  | swaggerUI (opts : SwaggerUIOpts) (next : Handler)
  | specMW (basePath : String) (doc : String) (next : Handler)
  | cors (next : Handler)
deriving DecidableEq

/-- `middleware.Redoc(opts, next)`. -/
def middlewareRedoc (opts : RedocOpts) (next : Handler) : Handler :=
  .redoc opts.ensureDefaults next

/-- `middleware.SwaggerUI(opts, next)`. -/
def middlewareSwaggerUI (opts : SwaggerUIOpts) (next : Handler) : Handler :=
  .swaggerUI opts.ensureDefaults next

/-- `middleware.Spec(basePath, b, next)`. -/
def middlewareSpec (basePath : String) (b : String) (next : Handler) : Handler :=
  .specMW (if basePath = "" then "/" else basePath) b next

/-- What a handler responds to one request. -/
inductive HResponse where
  | specDoc (bytes : String)
  | redocPage (opts : RedocOpts)
  | swaggerPage (opts : SwaggerUIOpts)
  | notFound
deriving DecidableEq

/-- Request dispatch through the handler chain.  Each middleware serves its
own route when the cleaned request path matches, and otherwise delegates to
the next handler; the CORS layer only adds response headers. -/
def handleReq : Handler → String → HResponse
  | .notFound, _ => .notFound
  | .redoc opts next, p =>
    if pathJoin [p] = pathJoin [opts.basePath, opts.path] then .redocPage opts
    else handleReq next p
  | .swaggerUI opts next, p =>
    if pathJoin [p] = pathJoin [opts.basePath, opts.path] then .swaggerPage opts
    else handleReq next p
  | .specMW bp b next, p =>
    if pathJoin [p] = pathJoin [bp, "swagger.json"] then .specDoc b
    else handleReq next p
  | .cors next, p => handleReq next p

/-- The `ServeCmd` flag structure, with the flag defaults of the source. -/
structure ServeCmd where
  BasePath : String := ""
  Flavor : String := "redoc"
  DocURL : String := ""
  NoOpen : Bool := false
  NoUI : Bool := false
  Flatten : Bool := false
  Port : Int := 0
  Host : String := "0.0.0.0"
  Path : String := "docs"
  SourceUrL : String := ""
deriving DecidableEq

/-- A loaded specification document (`loads.Document`); only the JSON value
returned by `.Spec()` matters to the serve command. -/
structure SpecDoc where
  spec : Json

/-- The fields of `spec.ExpandOptions` the serve command sets. -/
structure ExpandOptions where
  skipSchemas : Bool
  continueOnError : Bool
  absoluteCircularRef : Bool
deriving DecidableEq

/-- External collaborators of `ServeCmd.Execute`, as oracles:
`loads.Spec`, `Document.Expanded`, `json.MarshalIndent`, `net.Listen`
(returning the resolved address string of the bound listener) and
`webbrowser.Open`. -/
structure Env where
  loadSpec : String → Except String SpecDoc
  expanded : SpecDoc → ExpandOptions → Except String SpecDoc
  marshalIndent : Json → String → String → Except String String
  listen : String → String → Except String String
  browserOpen : String → Except String Unit

/-- Effects of one invocation, in program order. -/
inductive Event where
  | load (arg : String)
  | expand (opts : ExpandOptions)
  | marshal (pfx ind : String)
  | listen (network laddr : String)
  | serveStart
  | browserOpen (url : String)
  | logVisit (url : String)
deriving DecidableEq

/-- Result of `ServeCmd.Execute`: either an error returned before the final
blocking wait, or the serving state (handler chain and visit URL) in which
the command blocks on the server's error channel. -/
inductive ExecOutcome where
  | err (e : String)
  | serving (handler : Handler) (visit : String)
deriving DecidableEq

/-- `if sh == "0.0.0.0" { sh = "localhost" }`. -/
def displayHostOf (sh : String) : String :=
  if sh = "0.0.0.0" then "localhost" else sh

/-- The `reDocUrlPrefix` / `swaggerUiUrlPrefix` pair: an explicit
`--source_url` override is used verbatim for both flavors, otherwise each
flavor falls back to its own hardcoded default. -/
def uiUrlPrefixes (s : ServeCmd) : String × String :=
  if s.SourceUrL ≠ "" then (s.SourceUrL, s.SourceUrL)
  else ( DefaultRedocCloudStaticFileUrLPrefix, DefaultSwaggerCloudStaticFileUrLPrefix)

/-- The `if !s.NoUI { ... }` block: wraps `handler0` with the UI middleware
of the selected flavor and computes the visit URL; `visit0` is the current
`visit` value (`s.DocURL`). -/
def composeUI (s : ServeCmd) (basePath sh : String) (sp : Int) (visit0 : String)
    (handler0 : Handler) : Handler × String :=
  if !s.NoUI then
    if s.Flavor = "redoc" then
      (middlewareRedoc
        { basePath := basePath
          specURL := pathJoin [basePath, "swagger.json"]
          path := s.Path
          redocURL := goStringsJoin [(uiUrlPrefixes s).1, "redoc.standalone.js"] "/"
          title := "" } handler0,
       "http://" ++ sh ++ ":" ++ toString sp ++ pathJoin [basePath, "docs"])
    else if visit0 ≠ "" ∨ s.Flavor = "swagger" then
      (middlewareSwaggerUI
        { basePath := basePath
          specURL := pathJoin [basePath, "swagger.json"]
          path := s.Path
          swaggerURL := goStringsJoin [(uiUrlPrefixes s).2, "swagger-ui-bundle.js"] "/"
          swaggerPresetURL :=
            goStringsJoin [(uiUrlPrefixes s).2, "swagger-ui-standalone-preset.js"] "/"
          swaggerStylesURL := goStringsJoin [(uiUrlPrefixes s).2, "swagger-ui.css"] "/"
          favicon16 := goStringsJoin [(uiUrlPrefixes s).2, "favicon-16x16.png"] "/"
          favicon32 := goStringsJoin [(uiUrlPrefixes s).2, "favicon-32x32.png"] "/"
          title := "" } handler0,
       "http://" ++ sh ++ ":" ++ toString sp ++ pathJoin [basePath, s.Path])
    else (handler0, visit0)
  else (handler0, visit0)

/-- The flatten step: `specDoc.Expanded(&spec.ExpandOptions{...})` exactly
when `s.Flatten` is set, with the options written in the source. -/
def processDoc (s : ServeCmd) (env : Env) (d : SpecDoc) :
    Except String SpecDoc × List Event :=
  if s.Flatten then
    (env.expanded d ⟨false, true, true⟩, [.expand ⟨false, true, true⟩])
  else (.ok d, [])

def usageErrorMsg : String := "specify the spec to serve as argument to the serve command"

/-- Shallow embedding of `ServeCmd.Execute`.  Returns the outcome and the
trace of performed effects in program order.  A `.serving` outcome stands
for the final `return <-errFuture`: the command keeps running and will
return whatever error the HTTP server eventually delivers. -/
def execute (s : ServeCmd) (args : List String) (env : Env) :
    ExecOutcome × List Event :=
  match args with
  | [] => (.err usageErrorMsg, [])
  | arg :: _ =>
    match env.loadSpec arg with
    | .error e => (.err e, [.load arg])
    | .ok specDoc0 =>
      let pd := processDoc s env specDoc0
      match pd.1 with
      | .error e => (.err e, .load arg :: pd.2)
      | .ok specDoc =>
        match env.marshalIndent specDoc.spec "" "  " with
        | .error e => (.err e, .load arg :: pd.2 ++ [.marshal "" "  "])
        | .ok b =>
          let basePath := if s.BasePath = "" then "/" else s.BasePath
          let laddr := joinHostPort s.Host (toString s.Port)
          match env.listen "tcp4" laddr with
          | .error e =>
            (.err e, .load arg :: pd.2 ++ [.marshal "" "  ", .listen "tcp4" laddr])
          | .ok addr =>
            match splitHostPort addr with
            | .error e =>
              (.err e, .load arg :: pd.2 ++ [.marshal "" "  ", .listen "tcp4" laddr])
            | .ok (sh0, sp) =>
              let sh := displayHostOf sh0
              let hv := composeUI s basePath sh sp s.DocURL .notFound
              let handler := Handler.cors (middlewareSpec basePath b hv.1)
              let tr0 := Event.load arg :: pd.2
                ++ [.marshal "" "  ", .listen "tcp4" laddr, .serveStart]
              if !s.NoOpen && !s.NoUI then
                match env.browserOpen hv.2 with
                | .error e => (.err e, tr0 ++ [.browserOpen hv.2])
                | .ok _ =>
                  (.serving handler hv.2, tr0 ++ [.browserOpen hv.2, .logVisit hv.2])
              else (.serving handler hv.2, tr0 ++ [.logVisit hv.2])

/-- The defaulted base path (`if basePath == "" { basePath = "/" }`). -/
def basePathOf (s : ServeCmd) : String := if s.BasePath = "" then "/" else s.BasePath

/-- A sample document for concrete runs. -/
def sampleDoc : SpecDoc := ⟨Json.obj [("swagger", Json.str "2.0")]⟩

/-- A sample environment in which every collaborator succeeds; the listener
reports an OS-assigned ephemeral port on the wildcard address. -/
def sampleEnv : Env where
  loadSpec := fun _ => .ok sampleDoc
  expanded := fun d _ => .ok d
  marshalIndent := fun j pfx ind => .ok (goMarshalIndent j pfx ind)
  listen := fun _ _ => .ok "0.0.0.0:49152"
  browserOpen := fun _ => .ok ()

def cmdNoUI : ServeCmd := { NoUI := true }

def cmdFlatten : ServeCmd := { Flatten := true }

/-- An environment whose reference-expansion collaborator fails. -/
def expandFailEnv : Env := { sampleEnv with expanded := fun _ _ => .error "expand failed" }

/-- The default command: flavor `redoc`, UI and browser-open enabled. -/
def cmdRedoc : ServeCmd := {}

def cmdSwagger : ServeCmd := { Flavor := "swagger" }

def cmdSrc : ServeCmd := { SourceUrL := "https://example.com/assets" }

def loadFailEnv : Env := { sampleEnv with loadSpec := fun _ => .error "load failed" }

def marshalFailEnv : Env :=
  { sampleEnv with marshalIndent := fun _ _ _ => .error "marshal failed" }

def listenFailEnv : Env := { sampleEnv with listen := fun _ _ => .error "listen failed" }

def browserFailEnv : Env := { sampleEnv with browserOpen := fun _ => .error "open failed" }

example : pathClean "/a//b/./c" = "/a/b/c" := by decide

example : pathClean "" = "." := by decide

example : pathClean "/.." = "/" := by decide

example : pathClean "a/.." = "." := by decide

example : pathJoin ["/", "swagger.json"] = "/swagger.json" := by decide

example : pathJoin ["", ""] = "" := by decide

example : pathJoin ["/api/", "docs"] = "/api/docs" := by decide

example : joinHostPort "0.0.0.0" "0" = "0.0.0.0:0" := by decide

example : splitHostPort "0.0.0.0:49152" = .ok ("0.0.0.0", 49152) := rfl

example : splitHostPort "localhost" =
    .error "address localhost: missing port in address" := rfl

theorem goRenderKVs_eq_map (pfx ind : String) (depth : Nat) :
    ∀ l : List (String × Json),
      goRenderKVs pfx ind depth l = l.map (fun p => (p.1, goRenderVal pfx ind depth p.2))
  | [] => rfl
  | (k, v) :: rest => by
    simp only [goRenderKVs, List.map, goRenderKVs_eq_map pfx ind depth rest]

theorem orderedInsert_map_snd {α β : Type} (f : α → β) (a : String × α) :
    ∀ l : List (String × α),
      List.orderedInsert kLe (a.1, f a.2) (l.map (fun p => (p.1, f p.2)))
        = (List.orderedInsert kLe a l).map (fun p => (p.1, f p.2))
  | [] => rfl
  | b :: l => by
    by_cases h : kLe a b
    · have h' : kLe (a.1, f a.2) (b.1, f b.2) := h
      simp only [List.map, List.orderedInsert, if_pos h, if_pos h']
    · have h' : ¬ kLe (a.1, f a.2) (b.1, f b.2) := h
      simp only [List.map, List.orderedInsert, if_neg h, if_neg h',
        orderedInsert_map_snd f a l]

theorem insertionSort_map_snd {α β : Type} (f : α → β) :
    ∀ l : List (String × α),
      sortKVs (l.map (fun p => (p.1, f p.2)))
        = (sortKVs l).map (fun p => (p.1, f p.2))
  | [] => rfl
  | a :: l => by
    have ih := insertionSort_map_snd f l
    simp only [sortKVs] at ih ⊢
    simp only [List.map, List.insertionSort]
    rw [ih, orderedInsert_map_snd f a]

mutual

theorem goMarshalVal_eq_render (pfx ind : String) (depth : Nat) :
    ∀ d : Json, goMarshalVal pfx ind depth d = goRenderVal pfx ind depth (canonJson d)
  | .null => rfl
  | .bool true => rfl
  | .bool false => rfl
  | .num _ => rfl
  | .str _ => rfl
  | .arr xs => by
    simp only [goMarshalVal, goRenderVal, canonJson]
    rw [goMarshalList_eq_render pfx ind (depth + 1) xs]
  | .obj kvs => by
    simp only [goMarshalVal, goRenderVal, canonJson]
    rw [goMarshalKVs_eq_render pfx ind (depth + 1) kvs,
      goRenderKVs_eq_map, insertionSort_map_snd, ← goRenderKVs_eq_map]

theorem goMarshalList_eq_render (pfx ind : String) (depth : Nat) :
    ∀ xs : List Json,
      goMarshalList pfx ind depth xs = goRenderList pfx ind depth (canonList xs)
  | [] => rfl
  | x :: xs => by
    simp only [goMarshalList, goRenderList, canonList]
    rw [goMarshalVal_eq_render pfx ind depth x, goMarshalList_eq_render pfx ind depth xs]

theorem goMarshalKVs_eq_render (pfx ind : String) (depth : Nat) :
    ∀ kvs : List (String × Json),
      goMarshalKVs pfx ind depth kvs = goRenderKVs pfx ind depth (canonKVs kvs)
  | [] => rfl
  | (k, v) :: rest => by
    simp only [goMarshalKVs, goRenderKVs, canonKVs]
    rw [goMarshalVal_eq_render pfx ind depth v, goMarshalKVs_eq_render pfx ind depth rest]

end

example :
    goMarshalIndent (.obj [("b", .num 1), ("a", .str "x")]) "" "  "
      = "\x7b\n  \"a\": \"x\",\n  \"b\": 1\n\x7d" := rfl

theorem basePathOf_ne_empty (s : ServeCmd) : basePathOf s ≠ "" := by
  unfold basePathOf
  by_cases h : s.BasePath = "" <;> simp [h]

theorem middlewareSpec_basePathOf (s : ServeCmd) (b : String) (next : Handler) :
    middlewareSpec (basePathOf s) b next = .specMW (basePathOf s) b next := by
  unfold middlewareSpec
  simp [basePathOf_ne_empty s]

/-- C1: with `noUI` set, the composed chain is CORS wrapping the raw
document route over a 404 fallback — no UI route — the visit URL stays equal
to the (possibly empty) explicit doc URL, and the document route at
`basePath/swagger.json` serves exactly the bytes the document processor
produced. -/
theorem claim_C1 (s : ServeCmd) (env : Env) (a : String) (rest : List String)
    (d0 d : SpecDoc) (b addr sh0 : String) (sp : Int)
    (hnoui : s.NoUI = true)
    (hload : env.loadSpec a = .ok d0)
    (hproc : (processDoc s env d0).1 = .ok d)
    (hmar : env.marshalIndent d.spec "" "  " = .ok b)
    (hlisten : env.listen "tcp4" (joinHostPort s.Host (toString s.Port)) = .ok addr)
    (hsplit : splitHostPort addr = .ok (sh0, sp)) :
    execute s (a :: rest) env =
      (.serving (Handler.cors (.specMW (basePathOf s) b .notFound)) s.DocURL,
        Event.load a :: ((processDoc s env d0).2
          ++ [.marshal "" "  ",
              .listen "tcp4" (joinHostPort s.Host (toString s.Port)), .serveStart,
              .logVisit s.DocURL])) ∧
    (∀ p, handleReq (Handler.cors (.specMW (basePathOf s) b .notFound)) p =
      if pathJoin [p] = pathJoin [basePathOf s, "swagger.json"] then .specDoc b
      else .notFound) := by
  constructor
  · have hms := middlewareSpec_basePathOf s b Handler.notFound
    simp only [execute, hload, hproc, hmar, hlisten, hsplit, composeUI, hnoui,
      Bool.not_true, Bool.and_false, Bool.false_and, if_neg, basePathOf] at *
    simp [hms, List.cons_append, List.append_assoc]
  · intro p
    simp only [handleReq]

/-- C2: with UI enabled and flavor `redoc`, the visit URL is
`http://displayHost:boundPort` + `path.Join(basePath, "docs")` — the `docs`
segment is fixed, independent of the configured `--path` — while the redoc
route itself is registered under the configured `--path`. -/
theorem claim_C2 (s : ServeCmd) (env : Env) (a : String) (rest : List String)
    (d0 d : SpecDoc) (b addr sh0 : String) (sp : Int)
    (h : Handler) (v : String) (tr : List Event)
    (hnoui : s.NoUI = false) (hfl : s.Flavor = "redoc")
    (hload : env.loadSpec a = .ok d0)
    (hproc : (processDoc s env d0).1 = .ok d)
    (hmar : env.marshalIndent d.spec "" "  " = .ok b)
    (hlisten : env.listen "tcp4" (joinHostPort s.Host (toString s.Port)) = .ok addr)
    (hsplit : splitHostPort addr = .ok (sh0, sp))
    (hrun : execute s (a :: rest) env = (.serving h v, tr)) :
    v = "http://" ++ displayHostOf sh0 ++ ":" ++ toString sp
        ++ pathJoin [basePathOf s, "docs"] ∧
    h = .cors (.specMW (basePathOf s) b
        (.redoc (RedocOpts.ensureDefaults
          { basePath := basePathOf s
            specURL := pathJoin [basePathOf s, "swagger.json"]
            path := s.Path
            redocURL := goStringsJoin [(uiUrlPrefixes s).1, "redoc.standalone.js"] "/"
            title := "" }) .notFound)) ∧
    (s.Path ≠ "" →
      (RedocOpts.ensureDefaults
        { basePath := basePathOf s
          specURL := pathJoin [basePathOf s, "swagger.json"]
          path := s.Path
          redocURL := goStringsJoin [(uiUrlPrefixes s).1, "redoc.standalone.js"] "/"
          title := "" }).path = s.Path) := by
  have hms := middlewareSpec_basePathOf s b
  simp only [execute, hload, hproc, hmar, hlisten, hsplit, composeUI, hnoui, hfl,
    middlewareRedoc, Bool.not_false, Bool.and_true, basePathOf] at hrun hms
  rw [hms] at hrun
  cases hno : s.NoOpen with
  | true =>
    simp only [hno, Bool.not_true, Bool.false_and, Bool.false_eq_true, if_false] at hrun
    cases hrun
    refine ⟨by simp [basePathOf], by simp [basePathOf], fun hp => by
      simp [RedocOpts.ensureDefaults, hp]⟩
  | false =>
    rw [hno] at hrun
    simp only [Bool.not_false, eq_self_iff_true, if_true, ite_true] at hrun
    cases hb : env.browserOpen ("http://" ++ displayHostOf sh0 ++ ":" ++ toString sp
        ++ pathJoin [if s.BasePath = "" then "/" else s.BasePath, "docs"]) with
    | error e => simp [hb] at hrun
    | ok u =>
      simp only [hb] at hrun
      cases hrun
      refine ⟨by simp [basePathOf], by simp [basePathOf], fun hp => by
        simp [RedocOpts.ensureDefaults, hp]⟩

theorem pathClean_ne_empty (p : String) : pathClean p ≠ "" := by
  unfold pathClean
  by_cases h : p = ""
  · simp [h]
  · simp only [h, if_false]
    split <;> split <;> simp_all

theorem pathJoin_cons_ne_empty (x : String) (rest : List String) (hx : x ≠ "") :
    pathJoin (x :: rest) ≠ "" := by
  unfold pathJoin
  have hdw : (x :: rest).dropWhile (fun e => e = "") = x :: rest := by
    simp [List.dropWhile, hx]
  rw [hdw]
  exact pathClean_ne_empty _

/-- C3: with UI enabled and flavor `swagger`, a swagger-UI route is
registered at `basePath/uiPath` pointed at `basePath/swagger.json`, and the
visit URL is `http://displayHost:boundPort` + `path.Join(basePath, uiPath)`. -/
theorem claim_C3 (s : ServeCmd) (env : Env) (a : String) (rest : List String)
    (d0 d : SpecDoc) (b addr sh0 : String) (sp : Int)
    (h : Handler) (v : String) (tr : List Event)
    (hnoui : s.NoUI = false) (hfl : s.Flavor = "swagger")
    (hload : env.loadSpec a = .ok d0)
    (hproc : (processDoc s env d0).1 = .ok d)
    (hmar : env.marshalIndent d.spec "" "  " = .ok b)
    (hlisten : env.listen "tcp4" (joinHostPort s.Host (toString s.Port)) = .ok addr)
    (hsplit : splitHostPort addr = .ok (sh0, sp))
    (hrun : execute s (a :: rest) env = (.serving h v, tr)) :
    v = "http://" ++ displayHostOf sh0 ++ ":" ++ toString sp
        ++ pathJoin [basePathOf s, s.Path] ∧
    h = .cors (.specMW (basePathOf s) b
        (.swaggerUI (SwaggerUIOpts.ensureDefaults
          { basePath := basePathOf s
            specURL := pathJoin [basePathOf s, "swagger.json"]
            path := s.Path
            swaggerURL := goStringsJoin [(uiUrlPrefixes s).2, "swagger-ui-bundle.js"] "/"
            swaggerPresetURL :=
              goStringsJoin [(uiUrlPrefixes s).2, "swagger-ui-standalone-preset.js"] "/"
            swaggerStylesURL := goStringsJoin [(uiUrlPrefixes s).2, "swagger-ui.css"] "/"
            favicon16 := goStringsJoin [(uiUrlPrefixes s).2, "favicon-16x16.png"] "/"
            favicon32 := goStringsJoin [(uiUrlPrefixes s).2, "favicon-32x32.png"] "/"
            title := "" }) .notFound)) ∧
    (s.Path ≠ "" →
      (SwaggerUIOpts.ensureDefaults
        { basePath := basePathOf s
          specURL := pathJoin [basePathOf s, "swagger.json"]
          path := s.Path
          swaggerURL := goStringsJoin [(uiUrlPrefixes s).2, "swagger-ui-bundle.js"] "/"
          swaggerPresetURL :=
            goStringsJoin [(uiUrlPrefixes s).2, "swagger-ui-standalone-preset.js"] "/"
          swaggerStylesURL := goStringsJoin [(uiUrlPrefixes s).2, "swagger-ui.css"] "/"
          favicon16 := goStringsJoin [(uiUrlPrefixes s).2, "favicon-16x16.png"] "/"
          favicon32 := goStringsJoin [(uiUrlPrefixes s).2, "favicon-32x32.png"] "/"
          title := "" }).path = s.Path ∧
      (SwaggerUIOpts.ensureDefaults
        { basePath := basePathOf s
          specURL := pathJoin [basePathOf s, "swagger.json"]
          path := s.Path
          swaggerURL := goStringsJoin [(uiUrlPrefixes s).2, "swagger-ui-bundle.js"] "/"
          swaggerPresetURL :=
            goStringsJoin [(uiUrlPrefixes s).2, "swagger-ui-standalone-preset.js"] "/"
          swaggerStylesURL := goStringsJoin [(uiUrlPrefixes s).2, "swagger-ui.css"] "/"
          favicon16 := goStringsJoin [(uiUrlPrefixes s).2, "favicon-16x16.png"] "/"
          favicon32 := goStringsJoin [(uiUrlPrefixes s).2, "favicon-32x32.png"] "/"
          title := "" }).basePath = basePathOf s ∧
      (SwaggerUIOpts.ensureDefaults
        { basePath := basePathOf s
          specURL := pathJoin [basePathOf s, "swagger.json"]
          path := s.Path
          swaggerURL := goStringsJoin [(uiUrlPrefixes s).2, "swagger-ui-bundle.js"] "/"
          swaggerPresetURL :=
            goStringsJoin [(uiUrlPrefixes s).2, "swagger-ui-standalone-preset.js"] "/"
          swaggerStylesURL := goStringsJoin [(uiUrlPrefixes s).2, "swagger-ui.css"] "/"
          favicon16 := goStringsJoin [(uiUrlPrefixes s).2, "favicon-16x16.png"] "/"
          favicon32 := goStringsJoin [(uiUrlPrefixes s).2, "favicon-32x32.png"] "/"
          title := "" }).specURL = pathJoin [basePathOf s, "swagger.json"]) := by
  have hms := middlewareSpec_basePathOf s b
  simp only [execute, hload, hproc, hmar, hlisten, hsplit, composeUI, hnoui, hfl,
    middlewareSwaggerUI, Bool.not_false, Bool.and_true, basePathOf] at hrun hms
  rw [hms] at hrun
  cases hno : s.NoOpen with
  | true =>
    simp only [hno, Bool.not_true, Bool.false_and, Bool.false_eq_true, if_false] at hrun
    cases hrun
    refine ⟨by simp [basePathOf], by simp [basePathOf], fun hp =>
      ⟨by simp [SwaggerUIOpts.ensureDefaults, hp],
       by simp [SwaggerUIOpts.ensureDefaults, basePathOf_ne_empty s],
       by simp [SwaggerUIOpts.ensureDefaults,
         pathJoin_cons_ne_empty _ _ (basePathOf_ne_empty s)]⟩⟩
  | false =>
    rw [hno] at hrun
    have hsr : ("swagger" = "redoc") = False := eq_false (by decide)
    simp only [Bool.not_false, eq_self_iff_true, or_true, hsr, if_true, ite_true,
      if_false, ite_false] at hrun
    cases hb : env.browserOpen ("http://" ++ displayHostOf sh0 ++ ":" ++ toString sp
        ++ pathJoin [if s.BasePath = "" then "/" else s.BasePath, s.Path]) with
    | error e => simp [hb] at hrun
    | ok u =>
      simp only [hb] at hrun
      cases hrun
      refine ⟨by simp [basePathOf], by simp [basePathOf], fun hp =>
        ⟨by simp [SwaggerUIOpts.ensureDefaults, hp],
         by simp [SwaggerUIOpts.ensureDefaults, basePathOf_ne_empty s],
         by simp [SwaggerUIOpts.ensureDefaults,
           pathJoin_cons_ne_empty _ _ (basePathOf_ne_empty s)]⟩⟩

/-- C4: the visit URL's display host is `localhost` exactly when the
resolved bind host is `0.0.0.0` (and the literal host otherwise); the
argument handed to `net.Listen` is built from the configured host and port
only (the substitution never touches it); and the port in the visit URL is
the port parsed from the listener's resolved address — the OS-assigned one —
not the requested port. -/
theorem claim_C4 (s : ServeCmd) (env : Env) (a : String) (rest : List String)
    (d0 d : SpecDoc) (b addr sh0 : String) (sp : Int)
    (h : Handler) (v : String) (tr : List Event)
    (hnoui : s.NoUI = false)
    (hflavor : s.Flavor = "redoc" ∨ s.Flavor = "swagger")
    (hload : env.loadSpec a = .ok d0)
    (hproc : (processDoc s env d0).1 = .ok d)
    (hmar : env.marshalIndent d.spec "" "  " = .ok b)
    (hlisten : env.listen "tcp4" (joinHostPort s.Host (toString s.Port)) = .ok addr)
    (hsplit : splitHostPort addr = .ok (sh0, sp))
    (hrun : execute s (a :: rest) env = (.serving h v, tr)) :
    Event.listen "tcp4" (joinHostPort s.Host (toString s.Port)) ∈ tr ∧
    v = "http://" ++ displayHostOf sh0 ++ ":" ++ toString sp
        ++ pathJoin [basePathOf s, if s.Flavor = "redoc" then "docs" else s.Path] ∧
    displayHostOf "0.0.0.0" = "localhost" ∧
    (∀ hst, hst ≠ "0.0.0.0" → displayHostOf hst = hst) := by
  have hd2 : ∀ hst, hst ≠ "0.0.0.0" → displayHostOf hst = hst := fun hst hne => by
    simp [displayHostOf, hne]
  rcases hflavor with hfl | hfl
  · simp only [execute, hload, hproc, hmar, hlisten, hsplit, composeUI, hnoui, hfl,
      middlewareRedoc, Bool.not_false, Bool.and_true] at hrun
    cases hno : s.NoOpen with
    | true =>
      simp only [hno, Bool.not_true, Bool.false_and, Bool.false_eq_true, if_false] at hrun
      cases hrun
      exact ⟨by simp, by simp [basePathOf, hfl], rfl, hd2⟩
    | false =>
      rw [hno] at hrun
      simp only [Bool.not_false, eq_self_iff_true, if_true, ite_true] at hrun
      cases hb : env.browserOpen ("http://" ++ displayHostOf sh0 ++ ":" ++ toString sp
          ++ pathJoin [if s.BasePath = "" then "/" else s.BasePath, "docs"]) with
      | error e => simp [hb] at hrun
      | ok u =>
        simp only [hb] at hrun
        cases hrun
        exact ⟨by simp, by simp [basePathOf, hfl], rfl, hd2⟩
  · simp only [execute, hload, hproc, hmar, hlisten, hsplit, composeUI, hnoui, hfl,
      middlewareSwaggerUI, Bool.not_false, Bool.and_true] at hrun
    have hsr : ("swagger" = "redoc") = False := eq_false (by decide)
    cases hno : s.NoOpen with
    | true =>
      simp only [hno, Bool.not_true, Bool.false_and, Bool.false_eq_true, if_false] at hrun
      cases hrun
      exact ⟨by simp, by simp [basePathOf, hfl, hsr], rfl, hd2⟩
    | false =>
      rw [hno] at hrun
      simp only [Bool.not_false, eq_self_iff_true, or_true, hsr, if_true, ite_true,
        if_false, ite_false] at hrun
      cases hb : env.browserOpen ("http://" ++ displayHostOf sh0 ++ ":" ++ toString sp
          ++ pathJoin [if s.BasePath = "" then "/" else s.BasePath, s.Path]) with
      | error e => simp [hb] at hrun
      | ok u =>
        simp only [hb] at hrun
        cases hrun
        exact ⟨by simp, by simp [basePathOf, hfl, hsr], rfl, hd2⟩

theorem append_ne_empty_right (a b : String) (hb : b ≠ "") : a ++ b ≠ "" := by
  intro hab
  apply hb
  have hd := congrArg String.data hab
  simp only [String.data_append] at hd
  rcases List.append_eq_nil.mp hd with ⟨-, h2⟩
  cases b
  simp_all

/-- C5: a non-empty `--source_url` override is used verbatim as the asset
URL prefix for both flavors, and every generated asset URL of the active
flavor is the override, a slash, then the fixed asset filename; with no
override, each flavor's own hardcoded default remote prefix is used. -/
theorem claim_C5 (s : ServeCmd) (bp sh : String) (sp : Int) (v0 : String) (h0 : Handler)
    (hnoui : s.NoUI = false) :
    (s.SourceUrL ≠ "" →
      uiUrlPrefixes s = (s.SourceUrL, s.SourceUrL) ∧
      (s.Flavor = "redoc" →
        ∃ opts : RedocOpts,
          (composeUI s bp sh sp v0 h0).1 = .redoc opts h0 ∧
          opts.redocURL = s.SourceUrL ++ "/" ++ "redoc.standalone.js") ∧
      (s.Flavor = "swagger" →
        ∃ opts : SwaggerUIOpts,
          (composeUI s bp sh sp v0 h0).1 = .swaggerUI opts h0 ∧
          opts.swaggerURL = s.SourceUrL ++ "/" ++ "swagger-ui-bundle.js" ∧
          opts.swaggerPresetURL = s.SourceUrL ++ "/" ++ "swagger-ui-standalone-preset.js" ∧
          opts.swaggerStylesURL = s.SourceUrL ++ "/" ++ "swagger-ui.css" ∧
          opts.favicon16 = s.SourceUrL ++ "/" ++ "favicon-16x16.png" ∧
          opts.favicon32 = s.SourceUrL ++ "/" ++ "favicon-32x32.png")) ∧
    (s.SourceUrL = "" →
      uiUrlPrefixes s
        = ( DefaultRedocCloudStaticFileUrLPrefix, DefaultSwaggerCloudStaticFileUrLPrefix) ∧
      (s.Flavor = "redoc" →
        ∃ opts : RedocOpts,
          (composeUI s bp sh sp v0 h0).1 = .redoc opts h0 ∧
          opts.redocURL = DefaultRedocCloudStaticFileUrLPrefix ++ "/"
            ++ "redoc.standalone.js") ∧
      (s.Flavor = "swagger" →
        ∃ opts : SwaggerUIOpts,
          (composeUI s bp sh sp v0 h0).1 = .swaggerUI opts h0 ∧
          opts.swaggerURL
            = DefaultSwaggerCloudStaticFileUrLPrefix ++ "/" ++ "swagger-ui-bundle.js" ∧
          opts.swaggerPresetURL
            = DefaultSwaggerCloudStaticFileUrLPrefix ++ "/"
              ++ "swagger-ui-standalone-preset.js" ∧
          opts.swaggerStylesURL
            = DefaultSwaggerCloudStaticFileUrLPrefix ++ "/" ++ "swagger-ui.css" ∧
          opts.favicon16
            = DefaultSwaggerCloudStaticFileUrLPrefix ++ "/" ++ "favicon-16x16.png" ∧
          opts.favicon32
            = DefaultSwaggerCloudStaticFileUrLPrefix ++ "/" ++ "favicon-32x32.png")) := by
  have hredoc : s.Flavor = "redoc" →
      (composeUI s bp sh sp v0 h0).1 = .redoc (RedocOpts.ensureDefaults
        { basePath := bp
          specURL := pathJoin [bp, "swagger.json"]
          path := s.Path
          redocURL := goStringsJoin [(uiUrlPrefixes s).1, "redoc.standalone.js"] "/"
          title := "" }) h0 := by
    intro hfl
    simp only [composeUI, hnoui, hfl, middlewareRedoc, Bool.not_false, eq_self_iff_true,
      if_true, ite_true]
  have hswagger : s.Flavor = "swagger" →
      (composeUI s bp sh sp v0 h0).1 = .swaggerUI (SwaggerUIOpts.ensureDefaults
        { basePath := bp
          specURL := pathJoin [bp, "swagger.json"]
          path := s.Path
          swaggerURL := goStringsJoin [(uiUrlPrefixes s).2, "swagger-ui-bundle.js"] "/"
          swaggerPresetURL :=
            goStringsJoin [(uiUrlPrefixes s).2, "swagger-ui-standalone-preset.js"] "/"
          swaggerStylesURL := goStringsJoin [(uiUrlPrefixes s).2, "swagger-ui.css"] "/"
          favicon16 := goStringsJoin [(uiUrlPrefixes s).2, "favicon-16x16.png"] "/"
          favicon32 := goStringsJoin [(uiUrlPrefixes s).2, "favicon-32x32.png"] "/"
          title := "" }) h0 := by
    intro hfl
    have hsr : ("swagger" = "redoc") = False := eq_false (by decide)
    simp only [composeUI, hnoui, hfl, middlewareSwaggerUI, Bool.not_false, hsr,
      if_false, ite_false, eq_self_iff_true, or_true, if_true, ite_true]
  constructor
  · intro hov
    refine ⟨by simp [uiUrlPrefixes, hov], ?_, ?_⟩
    · intro hfl
      refine ⟨_, hredoc hfl, ?_⟩
      simp [RedocOpts.ensureDefaults, goStringsJoin, uiUrlPrefixes, hov,
        append_ne_empty_right (s.SourceUrL ++ "/") "redoc.standalone.js" (by decide)]
    · intro hfl
      refine ⟨_, hswagger hfl, ?_, ?_, ?_, ?_, ?_⟩ <;>
        simp [SwaggerUIOpts.ensureDefaults, goStringsJoin, uiUrlPrefixes, hov,
          append_ne_empty_right (s.SourceUrL ++ "/") "swagger-ui-bundle.js" (by decide),
          append_ne_empty_right (s.SourceUrL ++ "/") "swagger-ui-standalone-preset.js"
            (by decide),
          append_ne_empty_right (s.SourceUrL ++ "/") "swagger-ui.css" (by decide),
          append_ne_empty_right (s.SourceUrL ++ "/") "favicon-16x16.png" (by decide),
          append_ne_empty_right (s.SourceUrL ++ "/") "favicon-32x32.png" (by decide)]
  · intro hov
    refine ⟨by simp [uiUrlPrefixes, hov], ?_, ?_⟩
    · intro hfl
      refine ⟨_, hredoc hfl, ?_⟩
      simp [RedocOpts.ensureDefaults, goStringsJoin, uiUrlPrefixes, hov,
        append_ne_empty_right ( DefaultRedocCloudStaticFileUrLPrefix ++ "/")
          "redoc.standalone.js" (by decide)]
    · intro hfl
      refine ⟨_, hswagger hfl, ?_, ?_, ?_, ?_, ?_⟩ <;>
        simp [SwaggerUIOpts.ensureDefaults, goStringsJoin, uiUrlPrefixes, hov,
          append_ne_empty_right ( DefaultSwaggerCloudStaticFileUrLPrefix ++ "/")
            "swagger-ui-bundle.js" (by decide),
          append_ne_empty_right ( DefaultSwaggerCloudStaticFileUrLPrefix ++ "/")
            "swagger-ui-standalone-preset.js" (by decide),
          append_ne_empty_right ( DefaultSwaggerCloudStaticFileUrLPrefix ++ "/")
            "swagger-ui.css" (by decide),
          append_ne_empty_right ( DefaultSwaggerCloudStaticFileUrLPrefix ++ "/")
            "favicon-16x16.png" (by decide),
          append_ne_empty_right ( DefaultSwaggerCloudStaticFileUrLPrefix ++ "/")
            "favicon-32x32.png" (by decide)]

/-- C6: with `flatten` unset the loaded document passes through unchanged and
no expansion is attempted; with `flatten` set, expansion runs exactly once
with `SkipSchemas=false`, `ContinueOnError=true`, `AbsoluteCircularRef=true`;
and a fatal expansion failure aborts the command with that error before any
listen effect happens. -/
theorem claim_C6 (s : ServeCmd) (env : Env) (d : SpecDoc) (a : String)
    (rest : List String) (e : String) :
    (s.Flatten = false → processDoc s env d = (.ok d, [])) ∧
    (s.Flatten = true →
      processDoc s env d
        = (env.expanded d ⟨false, true, true⟩, [.expand ⟨false, true, true⟩])) ∧
    (s.Flatten = true → env.loadSpec a = .ok d →
      env.expanded d ⟨false, true, true⟩ = .error e →
      execute s (a :: rest) env = (.err e, [.load a, .expand ⟨false, true, true⟩]) ∧
      ∀ n ad, Event.listen n ad ∉ [Event.load a, Event.expand ⟨false, true, true⟩]) := by
  refine ⟨fun hf => by simp [processDoc, hf], fun hf => by simp [processDoc, hf],
    fun hf hload hexp => ⟨?_, ?_⟩⟩
  · simp only [execute, hload, processDoc, hf, if_true, ite_true, hexp]
  · intro n ad
    simp

/-- C7: serialization (the model of `json.MarshalIndent(spec, "", "  ")`) is
deterministic: any two in-memory representations of the same document — i.e.
with the same canonical form, object member order being immaterial — render
to byte-for-byte identical output. -/
theorem claim_C7 (d₁ d₂ : Json) (h : canonJson d₁ = canonJson d₂) :
    goMarshalIndent d₁ "" "  " = goMarshalIndent d₂ "" "  " := by
  unfold goMarshalIndent
  rw [goMarshalVal_eq_render "" "  " 0 d₁, goMarshalVal_eq_render "" "  " 0 d₂, h]

theorem claim_C7_witness :
    canonJson (Json.obj [("b", .num 1), ("a", .str "x")])
      = canonJson (Json.obj [("a", .str "x"), ("b", .num 1)]) ∧
    goMarshalIndent (Json.obj [("b", .num 1), ("a", .str "x")]) "" "  "
      = goMarshalIndent (Json.obj [("a", .str "x"), ("b", .num 1)]) "" "  " :=
  ⟨rfl, claim_C7 (Json.obj [("b", .num 1), ("a", .str "x")])
    (Json.obj [("a", .str "x"), ("b", .num 1)]) rfl⟩

theorem processDoc_events (s : ServeCmd) (env : Env) (d0 : SpecDoc) :
    (processDoc s env d0).2 = [] ∨
    (processDoc s env d0).2 = [Event.expand ⟨false, true, true⟩] := by
  by_cases hf : s.Flatten <;> simp [processDoc, hf]

/-- No invocation performs the same effect twice: the trace of any run has
no duplicate events. -/
theorem execute_trace_nodup (s : ServeCmd) (args : List String) (env : Env) :
    ((execute s args env).2).Nodup := by
  cases args with
  | nil => simp [execute]
  | cons a rest =>
    cases hL : env.loadSpec a with
    | error e => simp [execute, hL]
    | ok d0 =>
      rcases processDoc_events s env d0 with h2 | h2 <;>
      · cases hP : (processDoc s env d0).1 with
        | error e => simp [execute, hL, hP, h2]
        | ok d =>
          cases hM : env.marshalIndent d.spec "" "  " with
          | error em => simp [execute, hL, hP, h2, hM]
          | ok b =>
            cases hLi : env.listen "tcp4" (joinHostPort s.Host (toString s.Port)) with
            | error el => simp [execute, hL, hP, h2, hM, hLi]
            | ok addr =>
              cases hS : splitHostPort addr with
              | error es => simp [execute, hL, hP, h2, hM, hLi, hS]
              | ok pr =>
                obtain ⟨sh0, sp⟩ := pr
                by_cases hb : (!s.NoOpen && !s.NoUI) = true
                · cases hB : env.browserOpen (composeUI s
                      (if s.BasePath = "" then "/" else s.BasePath)
                      (displayHostOf sh0) sp s.DocURL .notFound).2 with
                  | error eb => simp [execute, hL, hP, h2, hM, hLi, hS, hb, hB]
                  | ok u => simp [execute, hL, hP, h2, hM, hLi, hS, hb, hB]
                · simp [execute, hL, hP, h2, hM, hLi, hS, hb]

/-- C8: a missing positional argument is an immediate usage error; load,
expansion, serialization and bind failures are each fatal, returned with the
underlying error before the server goroutine starts and before any browser
launch; and no effect is ever performed twice in one invocation. -/
theorem claim_C8 (s : ServeCmd) (env : Env) (a : String) (rest : List String)
    (e : String) (d0 d : SpecDoc) :
    execute s [] env = (.err usageErrorMsg, []) ∧
    (env.loadSpec a = .error e → execute s (a :: rest) env = (.err e, [.load a])) ∧
    (s.Flatten = true → env.loadSpec a = .ok d0 →
      env.expanded d0 ⟨false, true, true⟩ = .error e →
      (execute s (a :: rest) env).1 = .err e ∧
      Event.serveStart ∉ (execute s (a :: rest) env).2) ∧
    (env.loadSpec a = .ok d0 → (processDoc s env d0).1 = .ok d →
      env.marshalIndent d.spec "" "  " = .error e →
      execute s (a :: rest) env
        = (.err e, .load a :: ((processDoc s env d0).2 ++ [.marshal "" "  "])) ∧
      (∀ n ad, Event.listen n ad ∉ (execute s (a :: rest) env).2) ∧
      Event.serveStart ∉ (execute s (a :: rest) env).2 ∧
      (∀ u, Event.browserOpen u ∉ (execute s (a :: rest) env).2)) ∧
    (∀ b, env.loadSpec a = .ok d0 → (processDoc s env d0).1 = .ok d →
      env.marshalIndent d.spec "" "  " = .ok b →
      env.listen "tcp4" (joinHostPort s.Host (toString s.Port)) = .error e →
      execute s (a :: rest) env
        = (.err e, .load a :: ((processDoc s env d0).2
            ++ [.marshal "" "  ",
                .listen "tcp4" (joinHostPort s.Host (toString s.Port))])) ∧
      Event.serveStart ∉ (execute s (a :: rest) env).2 ∧
      (∀ u, Event.browserOpen u ∉ (execute s (a :: rest) env).2)) ∧
    (∀ args : List String, ∀ ev : Event, ((execute s args env).2).count ev ≤ 1) := by
  refine ⟨by simp [execute], fun hL => by simp [execute, hL], fun hf hL hE => ?_,
    fun hL hP hM => ?_, fun b hL hP hM hLi => ?_,
    fun args ev => List.nodup_iff_count_le_one.mp (execute_trace_nodup s args env) ev⟩
  · constructor <;> simp [execute, hL, processDoc, hf, hE]
  · rcases processDoc_events s env d0 with h2 | h2 <;>
      refine ⟨by simp [execute, hL, hP, hM], ?_, ?_, ?_⟩ <;>
      simp [execute, hL, hP, hM, h2]
  · rcases processDoc_events s env d0 with h2 | h2 <;>
      refine ⟨by simp [execute, hL, hP, hM, hLi], ?_, ?_⟩ <;>
      simp [execute, hL, hP, hM, hLi, h2]

/-- C9: when the browser launch is attempted (UI on, open on) and fails, the
command returns that launch error as its result even though the server
goroutine was already started. -/
theorem claim_C9 (s : ServeCmd) (env : Env) (a : String) (rest : List String)
    (d0 d : SpecDoc) (b addr sh0 : String) (sp : Int) (e : String)
    (hnoopen : s.NoOpen = false) (hnoui : s.NoUI = false)
    (hload : env.loadSpec a = .ok d0)
    (hproc : (processDoc s env d0).1 = .ok d)
    (hmar : env.marshalIndent d.spec "" "  " = .ok b)
    (hlisten : env.listen "tcp4" (joinHostPort s.Host (toString s.Port)) = .ok addr)
    (hsplit : splitHostPort addr = .ok (sh0, sp))
    (hbrowser : ∀ u, env.browserOpen u = .error e) :
    (execute s (a :: rest) env).1 = .err e ∧
    Event.serveStart ∈ (execute s (a :: rest) env).2 := by
  constructor <;>
    simp [execute, hload, hproc, hmar, hlisten, hsplit, hnoopen, hnoui, hbrowser]

/-- C10: the browser launch happens exactly when both `noOpen` and `noUI`
are unset; with `noUI` set no browser opens even with an explicit doc URL,
which is still logged as the visit URL; and the composed handler does not
depend on `noOpen` at all. -/
theorem claim_C10 (s : ServeCmd) (env : Env) (a : String) (rest : List String)
    (d0 d : SpecDoc) (b addr sh0 : String) (sp : Int)
    (h : Handler) (v : String) (tr : List Event)
    (hload : env.loadSpec a = .ok d0)
    (hproc : (processDoc s env d0).1 = .ok d)
    (hmar : env.marshalIndent d.spec "" "  " = .ok b)
    (hlisten : env.listen "tcp4" (joinHostPort s.Host (toString s.Port)) = .ok addr)
    (hsplit : splitHostPort addr = .ok (sh0, sp))
    (hbrowser : ∀ u, env.browserOpen u = .ok ())
    (hrun : execute s (a :: rest) env = (.serving h v, tr)) :
    ((∃ u, Event.browserOpen u ∈ tr) ↔ (s.NoOpen = false ∧ s.NoUI = false)) ∧
    (s.NoUI = true → v = s.DocURL ∧ Event.logVisit s.DocURL ∈ tr) ∧
    (∀ bp shx b', ∀ spx : Int,
      composeUI { s with NoOpen := b' } bp shx spx s.DocURL .notFound
        = composeUI s bp shx spx s.DocURL .notFound) := by
  simp only [execute, hload, hproc, hmar, hlisten, hsplit] at hrun
  cases hnu : s.NoUI with
  | true =>
    simp only [hnu, Bool.not_true, Bool.and_false, Bool.false_eq_true, if_false,
      ite_false, composeUI] at hrun
    cases hrun
    refine ⟨⟨?_, ?_⟩, fun hx => ⟨rfl, by simp⟩,
      fun bp shx b' spx => by simp [composeUI, hnu, uiUrlPrefixes]⟩
    · rintro ⟨u, hu⟩
      rcases processDoc_events s env d0 with h2 | h2 <;> simp [h2] at hu
    · rintro ⟨-, hcon⟩
      exact absurd hcon (by simp)
  | false =>
    cases hno : s.NoOpen with
    | true =>
      simp only [hnu, hno, Bool.not_true, Bool.not_false, Bool.false_and,
        Bool.and_false, Bool.false_eq_true, if_false, ite_false] at hrun
      cases hrun
      refine ⟨⟨?_, ?_⟩, fun hx => absurd hx (by simp),
        fun bp shx b' spx => by simp [composeUI, hnu, uiUrlPrefixes]⟩
      · rintro ⟨u, hu⟩
        rcases processDoc_events s env d0 with h2 | h2 <;> simp [h2] at hu
      · rintro ⟨hcon, -⟩
        exact absurd hcon (by simp)
    | false =>
      simp only [hnu, hno, Bool.not_false, Bool.and_self, if_true, ite_true,
        hbrowser] at hrun
      cases hrun
      refine ⟨⟨fun _ => ⟨rfl, rfl⟩, fun _ => ?_⟩, fun hx => absurd hx (by simp),
        fun bp shx b' spx => by simp [composeUI, hnu, uiUrlPrefixes]⟩
      exact ⟨(composeUI s (if s.BasePath = "" then "/" else s.BasePath)
        (displayHostOf sh0) sp s.DocURL .notFound).2, by simp⟩

theorem claim_C1_witness :
    cmdNoUI.NoUI = true ∧
    execute cmdNoUI ["x"] sampleEnv =
      (.serving (Handler.cors (.specMW (basePathOf cmdNoUI)
          (goMarshalIndent sampleDoc.spec "" "  ") .notFound)) cmdNoUI.DocURL,
        Event.load "x" :: ((processDoc cmdNoUI sampleEnv sampleDoc).2
          ++ [.marshal "" "  ",
              .listen "tcp4" (joinHostPort cmdNoUI.Host (toString cmdNoUI.Port)),
              .serveStart, .logVisit cmdNoUI.DocURL])) ∧
    handleReq (Handler.cors (.specMW (basePathOf cmdNoUI)
        (goMarshalIndent sampleDoc.spec "" "  ") .notFound)) "/swagger.json"
      = (if pathJoin ["/swagger.json"] = pathJoin [basePathOf cmdNoUI, "swagger.json"]
         then HResponse.specDoc (goMarshalIndent sampleDoc.spec "" "  ")
         else .notFound) :=
  have h := claim_C1 cmdNoUI sampleEnv "x" [] sampleDoc sampleDoc
    (goMarshalIndent sampleDoc.spec "" "  ") "0.0.0.0:49152" "0.0.0.0" 49152
    rfl rfl rfl rfl rfl rfl
  ⟨rfl, h.1, h.2 "/swagger.json"⟩

theorem claim_C2_witness :
    "http://localhost:49152/docs"
      = "http://" ++ displayHostOf "0.0.0.0" ++ ":" ++ toString (49152 : Int)
        ++ pathJoin [basePathOf cmdRedoc, "docs"] ∧
    Handler.cors (.specMW "/" (goMarshalIndent sampleDoc.spec "" "  ")
        (.redoc { basePath := "/", path := "docs", specURL := "/swagger.json",
                  redocURL := "https://cdn.jsdelivr.net/npm/redoc/bundles/redoc.standalone.js",
                  title := "API documentation" } .notFound))
      = .cors (.specMW (basePathOf cmdRedoc) (goMarshalIndent sampleDoc.spec "" "  ")
          (.redoc (RedocOpts.ensureDefaults
            { basePath := basePathOf cmdRedoc
              specURL := pathJoin [basePathOf cmdRedoc, "swagger.json"]
              path := cmdRedoc.Path
              redocURL := goStringsJoin [(uiUrlPrefixes cmdRedoc).1, "redoc.standalone.js"] "/"
              title := "" }) .notFound)) ∧
    (cmdRedoc.Path ≠ "" →
      (RedocOpts.ensureDefaults
        { basePath := basePathOf cmdRedoc
          specURL := pathJoin [basePathOf cmdRedoc, "swagger.json"]
          path := cmdRedoc.Path
          redocURL := goStringsJoin [(uiUrlPrefixes cmdRedoc).1, "redoc.standalone.js"] "/"
          title := "" }).path = cmdRedoc.Path) :=
  claim_C2 cmdRedoc sampleEnv "x" [] sampleDoc sampleDoc
    (goMarshalIndent sampleDoc.spec "" "  ") "0.0.0.0:49152" "0.0.0.0" 49152
    (Handler.cors (.specMW "/" (goMarshalIndent sampleDoc.spec "" "  ")
      (.redoc { basePath := "/", path := "docs", specURL := "/swagger.json",
                redocURL := "https://cdn.jsdelivr.net/npm/redoc/bundles/redoc.standalone.js",
                title := "API documentation" } .notFound)))
    "http://localhost:49152/docs"
    [Event.load "x", .marshal "" "  ", .listen "tcp4" "0.0.0.0:0", .serveStart,
     .browserOpen "http://localhost:49152/docs", .logVisit "http://localhost:49152/docs"]
    rfl rfl rfl rfl rfl rfl rfl (by decide)

theorem claim_C3_witness :
    "http://localhost:49152/docs"
      = "http://" ++ displayHostOf "0.0.0.0" ++ ":" ++ toString (49152 : Int)
        ++ pathJoin [basePathOf cmdSwagger, cmdSwagger.Path] ∧
    Handler.cors (.specMW "/" (goMarshalIndent sampleDoc.spec "" "  ")
        (.swaggerUI
          { basePath := "/", path := "docs", specURL := "/swagger.json",
              swaggerURL := "https://unpkg.com/swagger-ui-dist/swagger-ui-bundle.js",
              swaggerPresetURL :=
                "https://unpkg.com/swagger-ui-dist/swagger-ui-standalone-preset.js",
              swaggerStylesURL := "https://unpkg.com/swagger-ui-dist/swagger-ui.css",
              favicon16 := "https://unpkg.com/swagger-ui-dist/favicon-16x16.png",
              favicon32 := "https://unpkg.com/swagger-ui-dist/favicon-32x32.png",
              title := "API documentation" } .notFound))
      = .cors (.specMW (basePathOf cmdSwagger) (goMarshalIndent sampleDoc.spec "" "  ")
          (.swaggerUI (SwaggerUIOpts.ensureDefaults
            { basePath := basePathOf cmdSwagger
              specURL := pathJoin [basePathOf cmdSwagger, "swagger.json"]
              path := cmdSwagger.Path
              swaggerURL :=
                goStringsJoin [(uiUrlPrefixes cmdSwagger).2, "swagger-ui-bundle.js"] "/"
              swaggerPresetURL :=
                goStringsJoin [(uiUrlPrefixes cmdSwagger).2,
                  "swagger-ui-standalone-preset.js"] "/"
              swaggerStylesURL :=
                goStringsJoin [(uiUrlPrefixes cmdSwagger).2, "swagger-ui.css"] "/"
              favicon16 :=
                goStringsJoin [(uiUrlPrefixes cmdSwagger).2, "favicon-16x16.png"] "/"
              favicon32 :=
                goStringsJoin [(uiUrlPrefixes cmdSwagger).2, "favicon-32x32.png"] "/"
              title := "" }) .notFound)) ∧
    (cmdSwagger.Path ≠ "" →
      (SwaggerUIOpts.ensureDefaults
        { basePath := basePathOf cmdSwagger
          specURL := pathJoin [basePathOf cmdSwagger, "swagger.json"]
          path := cmdSwagger.Path
          swaggerURL :=
            goStringsJoin [(uiUrlPrefixes cmdSwagger).2, "swagger-ui-bundle.js"] "/"
          swaggerPresetURL :=
            goStringsJoin [(uiUrlPrefixes cmdSwagger).2,
              "swagger-ui-standalone-preset.js"] "/"
          swaggerStylesURL :=
            goStringsJoin [(uiUrlPrefixes cmdSwagger).2, "swagger-ui.css"] "/"
          favicon16 :=
            goStringsJoin [(uiUrlPrefixes cmdSwagger).2, "favicon-16x16.png"] "/"
          favicon32 :=
            goStringsJoin [(uiUrlPrefixes cmdSwagger).2, "favicon-32x32.png"] "/"
          title := "" }).path = cmdSwagger.Path ∧
      (SwaggerUIOpts.ensureDefaults
        { basePath := basePathOf cmdSwagger
          specURL := pathJoin [basePathOf cmdSwagger, "swagger.json"]
          path := cmdSwagger.Path
          swaggerURL :=
            goStringsJoin [(uiUrlPrefixes cmdSwagger).2, "swagger-ui-bundle.js"] "/"
          swaggerPresetURL :=
            goStringsJoin [(uiUrlPrefixes cmdSwagger).2,
              "swagger-ui-standalone-preset.js"] "/"
          swaggerStylesURL :=
            goStringsJoin [(uiUrlPrefixes cmdSwagger).2, "swagger-ui.css"] "/"
          favicon16 :=
            goStringsJoin [(uiUrlPrefixes cmdSwagger).2, "favicon-16x16.png"] "/"
          favicon32 :=
            goStringsJoin [(uiUrlPrefixes cmdSwagger).2, "favicon-32x32.png"] "/"
          title := "" }).basePath = basePathOf cmdSwagger ∧
      (SwaggerUIOpts.ensureDefaults
        { basePath := basePathOf cmdSwagger
          specURL := pathJoin [basePathOf cmdSwagger, "swagger.json"]
          path := cmdSwagger.Path
          swaggerURL :=
            goStringsJoin [(uiUrlPrefixes cmdSwagger).2, "swagger-ui-bundle.js"] "/"
          swaggerPresetURL :=
            goStringsJoin [(uiUrlPrefixes cmdSwagger).2,
              "swagger-ui-standalone-preset.js"] "/"
          swaggerStylesURL :=
            goStringsJoin [(uiUrlPrefixes cmdSwagger).2, "swagger-ui.css"] "/"
          favicon16 :=
            goStringsJoin [(uiUrlPrefixes cmdSwagger).2, "favicon-16x16.png"] "/"
          favicon32 :=
            goStringsJoin [(uiUrlPrefixes cmdSwagger).2, "favicon-32x32.png"] "/"
          title := "" }).specURL = pathJoin [basePathOf cmdSwagger, "swagger.json"]) :=
  claim_C3 cmdSwagger sampleEnv "x" [] sampleDoc sampleDoc
    (goMarshalIndent sampleDoc.spec "" "  ") "0.0.0.0:49152" "0.0.0.0" 49152
    (Handler.cors (.specMW "/" (goMarshalIndent sampleDoc.spec "" "  ")
      (.swaggerUI
        { basePath := "/", path := "docs", specURL := "/swagger.json",
            swaggerURL := "https://unpkg.com/swagger-ui-dist/swagger-ui-bundle.js",
            swaggerPresetURL :=
              "https://unpkg.com/swagger-ui-dist/swagger-ui-standalone-preset.js",
            swaggerStylesURL := "https://unpkg.com/swagger-ui-dist/swagger-ui.css",
            favicon16 := "https://unpkg.com/swagger-ui-dist/favicon-16x16.png",
            favicon32 := "https://unpkg.com/swagger-ui-dist/favicon-32x32.png",
            title := "API documentation" } .notFound)))
    "http://localhost:49152/docs"
    [Event.load "x", .marshal "" "  ", .listen "tcp4" "0.0.0.0:0", .serveStart,
     .browserOpen "http://localhost:49152/docs", .logVisit "http://localhost:49152/docs"]
    rfl rfl rfl rfl rfl rfl rfl (by decide)

theorem claim_C4_witness :
    Event.listen "tcp4" (joinHostPort cmdRedoc.Host (toString cmdRedoc.Port)) ∈
      ([Event.load "x", .marshal "" "  ", .listen "tcp4" "0.0.0.0:0", .serveStart,
        .browserOpen "http://localhost:49152/docs",
        .logVisit "http://localhost:49152/docs"] : List Event) ∧
    "http://localhost:49152/docs"
      = "http://" ++ displayHostOf "0.0.0.0" ++ ":" ++ toString (49152 : Int)
        ++ pathJoin [basePathOf cmdRedoc,
            if cmdRedoc.Flavor = "redoc" then "docs" else cmdRedoc.Path] ∧
    displayHostOf "0.0.0.0" = "localhost" ∧
    displayHostOf "127.0.0.1" = "127.0.0.1" :=
  have h := claim_C4 cmdRedoc sampleEnv "x" [] sampleDoc sampleDoc
    (goMarshalIndent sampleDoc.spec "" "  ") "0.0.0.0:49152" "0.0.0.0" 49152
    (Handler.cors (.specMW "/" (goMarshalIndent sampleDoc.spec "" "  ")
      (.redoc { basePath := "/", path := "docs", specURL := "/swagger.json",
                redocURL := "https://cdn.jsdelivr.net/npm/redoc/bundles/redoc.standalone.js",
                title := "API documentation" } .notFound)))
    "http://localhost:49152/docs"
    [Event.load "x", .marshal "" "  ", .listen "tcp4" "0.0.0.0:0", .serveStart,
     .browserOpen "http://localhost:49152/docs", .logVisit "http://localhost:49152/docs"]
    rfl (Or.inl rfl) rfl rfl rfl rfl rfl (by decide)
  ⟨h.1, h.2.1, h.2.2.1, h.2.2.2 "127.0.0.1" (by decide)⟩

theorem claim_C5_witness :
    uiUrlPrefixes cmdSrc = ("https://example.com/assets", "https://example.com/assets") ∧
    uiUrlPrefixes cmdRedoc
      = ( DefaultRedocCloudStaticFileUrLPrefix, DefaultSwaggerCloudStaticFileUrLPrefix) ∧
    (∃ opts : RedocOpts,
      (composeUI cmdSrc "/" "localhost" 49152 "" .notFound).1 = .redoc opts .notFound ∧
      opts.redocURL = cmdSrc.SourceUrL ++ "/" ++ "redoc.standalone.js") ∧
    (∃ opts : RedocOpts,
      (composeUI cmdRedoc "/" "localhost" 49152 "" .notFound).1 = .redoc opts .notFound ∧
      opts.redocURL = DefaultRedocCloudStaticFileUrLPrefix ++ "/"
        ++ "redoc.standalone.js") :=
  have h1 := claim_C5 cmdSrc "/" "localhost" 49152 "" .notFound rfl
  have h2 := claim_C5 cmdRedoc "/" "localhost" 49152 "" .notFound rfl
  ⟨(h1.1 (by decide)).1, (h2.2 rfl).1, (h1.1 (by decide)).2.1 rfl, (h2.2 rfl).2.1 rfl⟩

theorem claim_C6_witness :
    processDoc cmdRedoc sampleEnv sampleDoc = (.ok sampleDoc, []) ∧
    processDoc cmdFlatten expandFailEnv sampleDoc
      = (.error "expand failed", [.expand ⟨false, true, true⟩]) ∧
    execute cmdFlatten ["x"] expandFailEnv
      = (.err "expand failed", [.load "x", .expand ⟨false, true, true⟩]) ∧
    (Event.listen "tcp4" "0.0.0.0:0" ∉
      ([Event.load "x", Event.expand ⟨false, true, true⟩] : List Event)) :=
  have h0 := claim_C6 cmdRedoc sampleEnv sampleDoc "x" [] "expand failed"
  have h := claim_C6 cmdFlatten expandFailEnv sampleDoc "x" [] "expand failed"
  ⟨h0.1 rfl, by rw [h.2.1 rfl]; exact rfl, (h.2.2 rfl rfl rfl).1,
    (h.2.2 rfl rfl rfl).2 "tcp4" "0.0.0.0:0"⟩

theorem claim_C8_witness :
    execute cmdRedoc [] sampleEnv = (.err usageErrorMsg, []) ∧
    execute cmdRedoc ["x"] loadFailEnv = (.err "load failed", [.load "x"]) ∧
    ((execute cmdFlatten ["x"] expandFailEnv).1 = .err "expand failed" ∧
      Event.serveStart ∉ (execute cmdFlatten ["x"] expandFailEnv).2) ∧
    (execute cmdRedoc ["x"] marshalFailEnv
        = (.err "marshal failed",
           .load "x" :: ((processDoc cmdRedoc marshalFailEnv sampleDoc).2
             ++ [.marshal "" "  "])) ∧
      Event.serveStart ∉ (execute cmdRedoc ["x"] marshalFailEnv).2 ∧
      Event.browserOpen "http://localhost:49152/docs"
        ∉ (execute cmdRedoc ["x"] marshalFailEnv).2) ∧
    (execute cmdRedoc ["x"] listenFailEnv
        = (.err "listen failed",
           .load "x" :: ((processDoc cmdRedoc listenFailEnv sampleDoc).2
             ++ [.marshal "" "  ",
                 .listen "tcp4" (joinHostPort cmdRedoc.Host (toString cmdRedoc.Port))])) ∧
      Event.serveStart ∉ (execute cmdRedoc ["x"] listenFailEnv).2) ∧
    ((execute cmdRedoc ["x"] sampleEnv).2).count (Event.load "x") ≤ 1 :=
  have h1 := claim_C8 cmdRedoc sampleEnv "x" [] "e" sampleDoc sampleDoc
  have h2 := claim_C8 cmdRedoc loadFailEnv "x" [] "load failed" sampleDoc sampleDoc
  have h3 := claim_C8 cmdFlatten expandFailEnv "x" [] "expand failed" sampleDoc sampleDoc
  have h4 := claim_C8 cmdRedoc marshalFailEnv "x" [] "marshal failed" sampleDoc sampleDoc
  have h5 := claim_C8 cmdRedoc listenFailEnv "x" [] "listen failed" sampleDoc sampleDoc
  ⟨h1.1, h2.2.1 rfl, h3.2.2.1 rfl rfl rfl,
    ⟨(h4.2.2.2.1 rfl rfl rfl).1, (h4.2.2.2.1 rfl rfl rfl).2.2.1,
      (h4.2.2.2.1 rfl rfl rfl).2.2.2 "http://localhost:49152/docs"⟩,
    ⟨(h5.2.2.2.2.1 (goMarshalIndent sampleDoc.spec "" "  ") rfl rfl rfl rfl).1,
      (h5.2.2.2.2.1 (goMarshalIndent sampleDoc.spec "" "  ") rfl rfl rfl rfl).2.1⟩,
    h1.2.2.2.2.2 ["x"] (Event.load "x")⟩

theorem claim_C9_witness :
    (execute cmdRedoc ["x"] browserFailEnv).1 = .err "open failed" ∧
    Event.serveStart ∈ (execute cmdRedoc ["x"] browserFailEnv).2 :=
  claim_C9 cmdRedoc browserFailEnv "x" [] sampleDoc sampleDoc
    (goMarshalIndent sampleDoc.spec "" "  ") "0.0.0.0:49152" "0.0.0.0" 49152
    "open failed" rfl rfl rfl rfl rfl rfl rfl (fun _ => rfl)

theorem claim_C10_witness :
    ((∃ u, Event.browserOpen u ∈
        ([Event.load "x", .marshal "" "  ", .listen "tcp4" "0.0.0.0:0", .serveStart,
          .logVisit ""] : List Event)) ↔
      (cmdNoUI.NoOpen = false ∧ cmdNoUI.NoUI = false)) ∧
    (cmdNoUI.NoUI = true → "" = cmdNoUI.DocURL ∧
      Event.logVisit cmdNoUI.DocURL ∈
        ([Event.load "x", .marshal "" "  ", .listen "tcp4" "0.0.0.0:0", .serveStart,
          .logVisit ""] : List Event)) ∧
    composeUI { cmdNoUI with NoOpen := true } "/" "localhost" 49152 cmdNoUI.DocURL .notFound
      = composeUI cmdNoUI "/" "localhost" 49152 cmdNoUI.DocURL .notFound :=
  have h := claim_C10 cmdNoUI sampleEnv "x" [] sampleDoc sampleDoc
    (goMarshalIndent sampleDoc.spec "" "  ") "0.0.0.0:49152" "0.0.0.0" 49152
    (Handler.cors (.specMW "/" (goMarshalIndent sampleDoc.spec "" "  ") .notFound)) ""
    [Event.load "x", .marshal "" "  ", .listen "tcp4" "0.0.0.0:0", .serveStart,
     .logVisit ""]
    rfl rfl rfl rfl rfl (fun _ => rfl) (by decide)
  ⟨h.1, h.2.1, h.2.2 "/" "localhost" true 49152⟩
